import Mathlib

/-
  Verification of the orchestration core of cordova-paramedic
  (src/lib/paramedic.js) against its natural-language specification.

  The JavaScript is shallowly embedded: promise chains become explicit
  outcomes carrying a settle time (milliseconds from run start), the Q
  library combinators `fin` and `timeout` become pure functions on those
  outcomes, and side effects become an ordered trace of actions.  External
  collaborators (the local event server, the cordova CLI, Sauce Labs) are
  represented by world parameters describing what they do on one run.
-/

namespace Paramedic

/-- Time to wait for initial device connection (module-level constant
`INITIAL_CONNECTION_TIMEOUT = 300000` in paramedic.js, line 37). -/
def INITIAL_CONNECTION_TIMEOUT : Nat := 300000

/-- Name of the Sauce user environment variable (paramedic.js line 39). -/
def SAUCE_USER_ENV_VAR : String := "SAUCE_USER"

/-- Name of the Sauce access-key environment variable (paramedic.js line 40). -/
def SAUCE_KEY_ENV_VAR : String := "SAUCE_ACCESS_KEY"

/-- The configuration object consumed by ParamedicRunner.  Only the getters
the orchestration core reads are modelled: getPlatformId, getAction,
getArgs, shouldUseSauce, getShouldCleanUpAfterRun, getTimeout.
(getPorts / getExternalServerUrl / getUseTunnel are passed through to the
external server and isVerbose only tunes logging.) -/
structure ParamedicConfig where
  platformId : String
  action : String
  args : Option String
  useSauce : Bool
  shouldCleanUpAfterRun : Bool
  timeout : Nat
  deriving DecidableEq

/-- The two process environment variables read by the orchestrator
(process.env[SAUCE_USER], process.env[SAUCE_ACCESS_KEY]); `none` means the
variable is unset. -/
structure ProcessEnv where
  sauceUser : Option String
  sauceKey : Option String
  deriving DecidableEq

/-- JavaScript truthiness of `process.env[x]`: an unset variable and the
empty string are falsy, any other string is truthy. -/
def envTruthy : Option String → Bool
  | none => false
  | some s => !s.isEmpty

/-- Events emitted by the local test event server towards its subscribers
(paramedic.js subscribes to these routes; the terminal `jasmineDone` event
carries `data.specResults.specFailed`). -/
inductive ServerEvent where
  | jasmineStarted
  | specStarted
  | specDone
  | suiteStarted
  | suiteDone
  | jasmineDone (specFailed : Nat)
  | deviceLog
  | deviceInfo
  | disconnect
  deriving DecidableEq

/-- Values thrown or used as rejection reasons by the embedded code. -/
inductive JsError where
  /-- `new Error(msg)`. -/
  | error (msg : String)
  /-- A JavaScript ReferenceError: the named identifier is not defined in
  any enclosing scope. -/
  | referenceError (name : String)
  /-- The raw rejection of execPromise for a failing command (the sauce
  branch forwards it without wrapping). -/
  | execFail (cmd : String) (code : Nat)
  /-- `reject()` called with no argument: the rejection reason is
  `undefined`. -/
  | undefinedReason
  deriving DecidableEq

/-- The observable fate of a promise, with the settle time in milliseconds
from the start of the run.  `thrown` stands for a synchronous exception
escaping before any promise was created (no combinator ever attaches to
it). -/
inductive Outcome (α : Type) where
  | fulfilled (t : Nat) (v : α)
  | rejected (t : Nat) (e : JsError)
  | pending
  | thrown (e : JsError)
  deriving DecidableEq

/-- Settle time of an outcome, `none` when it never settles (pending) or
never existed as a promise (synchronous throw). -/
def settleTime {α : Type} : Outcome α → Option Nat
  | .fulfilled t _ => some t
  | .rejected t _ => some t
  | .pending => none
  | .thrown _ => none

/-- Side effects of one run, in chronological order. -/
inductive Action where
  /-- createTempProject: tmp dir + `cordova create` + pushd. -/
  | createTempProject
  /-- prepareProjectToRunTests: plugins, start page, platform add,
  requirements check. -/
  | prepareProject
  /-- Server.startServer(...). -/
  | startServer
  /-- injectReporters: for one lifecycle route, bind the handler of each of
  the `count` reporters returned by getReporters. -/
  | subscribeReporter (route : String) (count : Nat)
  /-- subcribeForEvents: the deviceLog listener. -/
  | subscribeDeviceLog
  /-- subcribeForEvents: the deviceInfo listener. -/
  | subscribeDeviceInfo
  /-- writeMedicConnectionUrl: fs.writeFileSync of www/medic.json. -/
  | writeFile (contents : String)
  /-- execPromise of a cordova build/run command. -/
  | execCommand (cmd : String)
  /-- setTimeout with the given duration (the connection watchdog). -/
  | setTimer (duration : Nat)
  /-- uploadApp: POST the binary to Sauce storage. -/
  | uploadApp
  /-- wd.remote + driver.init with the capability set. -/
  | driverInit
  /-- driver.quit(). -/
  | driverQuit
  /-- cleanUpProject ran; `deleted` records whether the cleanup flag made
  it popd + rm the temp project. -/
  | cleanUpProject (deleted : Bool)
  deriving DecidableEq

/-- Everything outside the orchestrator that determines one run: the
configuration, the environment, and what each external collaborator does.
`attachTime` is the moment the device-side harness connects to the event
server (`none`: never); `events` are the server's emissions with their
absolute times, in delivery order; `cleanupThrows` is `some m` when the
shell operations inside cleanUpProject throw an error with message `m`. -/
structure RunWorld where
  cfg : ParamedicConfig
  env : ProcessEnv
  connectionUrl : String
  reporterCount : Nat
  platformRequirementsOk : Bool
  buildExitCode : Nat
  buildDuration : Nat
  uploadSucceeds : Bool
  uploadDuration : Nat
  driverInitFails : Bool
  driverInitDuration : Nat
  attachTime : Option Nat
  events : List (Nat × ServerEvent)
  cleanupThrows : Option String
  deriving DecidableEq

/-- Modelled from the spec: the event server's `isDeviceConnected()`
predicate (LocalServer.js is not under src/).  Spec §3 Connection State:
"a two-valued fact ... transitions exactly once from not-attached to
attached; never reverts", so the device is connected at time `t` exactly
when its attach time exists and is at most `t`. -/
def isDeviceConnected (attachTime : Option Nat) (t : Nat) : Bool :=
  match attachTime with
  | some a => decide (a ≤ t)
  | none => false

/-- checkSauceRequirements (paramedic.js lines 245-257): throws a
configuration error when Sauce mode is combined with an unsupported
platform, a missing credential variable, or a build-only action. -/
def shouldWaitForTestResult (cfg : ParamedicConfig) : Bool :=
  cfg.action == "run" || cfg.action == "emulate"

def checkSauceRequirements (cfg : ParamedicConfig) (env : ProcessEnv) :
    Except JsError Unit :=
  if cfg.useSauce then
    if cfg.platformId != "android" && cfg.platformId != "ios" then
      .error (.error "Sauce Labs only supports Android and iOS")
    else if !envTruthy env.sauceKey then
      .error (.error (SAUCE_KEY_ENV_VAR ++ " environment variable not set"))
    else if !envTruthy env.sauceUser then
      .error (.error (SAUCE_USER_ENV_VAR ++ " environment variable not set"))
    else if !shouldWaitForTestResult cfg then
      .error (.error "justBuild cannot be used with shouldUseSauce")
    else
      .ok ()
  else
    .ok ()

/-- getCommandForStartingTests (lines 200-208): `cordova <action>
<platformId>` plus the extra args when they are truthy. -/
def getCommandForStartingTests (cfg : ParamedicConfig) : String :=
  let cmd := "cordova " ++ cfg.action ++ " " ++ cfg.platformId
  match cfg.args with
  | some a => if a.isEmpty then cmd else cmd ++ " " ++ a
  | none => cmd

/-- getCommandForBuilding (lines 210-214). -/
def getCommandForBuilding (cfg : ParamedicConfig) : String :=
  "cordova build " ++ cfg.platformId

/-- Error message of the connection watchdog (line 224): the duration is
INITIAL_CONNECTION_TIMEOUT / 1000 seconds, not a configured value. -/
def connectionTimeoutErrMsg : String :=
  "Seems like device not connected to local server in " ++
    toString (INITIAL_CONNECTION_TIMEOUT / 1000) ++ " secs"

instance {ε α : Type} [DecidableEq ε] [DecidableEq α] : DecidableEq (Except ε α) :=
  fun a b =>
    match a, b with
    | .ok x, .ok y =>
      if h : x = y then .isTrue (by rw [h]) else .isFalse (by simp [h])
    | .error x, .error y =>
      if h : x = y then .isTrue (by rw [h]) else .isFalse (by simp [h])
    | .ok _, .error _ => .isFalse (by simp)
    | .error _, .ok _ => .isFalse (by simp)

/-- Result of one call to waitForConnection: the durations of the timers it
sets (one entry per setTimeout call), the times — offsets from the moment
it was called — at which it evaluates isDeviceConnected (one entry per
call), and how its promise settles. -/
structure ConnWait where
  timerDurations : List Nat
  checkTimes : List Nat
  result : Except String Unit
  deriving DecidableEq

/-- waitForConnection (lines 221-235): one setTimeout of
INITIAL_CONNECTION_TIMEOUT; at expiry a single isDeviceConnected() query
decides between resolve() and reject(Error(ERR_MSG)).  The method reads
nothing from this.config, so the embedding takes the config only to show
that it is ignored; `connected` is the server predicate as a function of
the offset from the call. -/
def waitForConnection (_cfg : ParamedicConfig) (connected : Nat → Bool) :
    ConnWait :=
  { timerDurations := [INITIAL_CONNECTION_TIMEOUT]
    checkTimes := [INITIAL_CONNECTION_TIMEOUT]
    result :=
      if connected INITIAL_CONNECTION_TIMEOUT then .ok ()
      else .error connectionTimeoutErrMsg }

/-- Rejection message of waitForTests on a disconnect (line 161). -/
def disconnectErrMsg : String := "device is disconnected before passing the tests"

/-- waitForTests (lines 148-164): a Q.promise with one listener on
'jasmineDone' (resolve with `specResults.specFailed === 0`) and one on
'disconnect' (reject).  The input is the sequence of events delivered to
these listeners in order; the first call to resolve or reject wins, later
events are ignored, and with no relevant event the promise stays pending
(`none`). -/
def waitForTests : List ServerEvent → Option (Except String Bool)
  | [] => none
  | e :: es =>
    match e with
    | .jasmineDone n => some (.ok (n == 0))
    | .disconnect => some (.error disconnectErrMsg)
    | _ => waitForTests es

/-- An event that settles the waitForTests promise. -/
def relevantEvent : ServerEvent → Bool
  | .jasmineDone _ => true
  | .disconnect => true
  | _ => false

/-- waitForTests at the run level: the listeners are registered at absolute
time `subAt`, so server emissions before that moment are lost (an
EventEmitter does not replay).  Result: settle time and value. -/
def waitForTestsFrom (subAt : Nat) :
    List (Nat × ServerEvent) → Option (Nat × Except String Bool)
  | [] => none
  | (t, e) :: es =>
    if t < subAt then waitForTestsFrom subAt es
    else
      match e with
      | .jasmineDone n => some (t, .ok (n == 0))
      | .disconnect => some (t, .error disconnectErrMsg)
      | _ => waitForTestsFrom subAt es

/-- Trace, promise outcome and possible uncaught exception of one chain of
the embedded code.  The value of a fulfilled outcome is `some b` when the
promise carries the boolean test verdict and `none` for `undefined`. -/
structure ChainResult where
  trace : List Action
  outcome : Outcome (Option Bool)
  uncaught : Option JsError
  deriving DecidableEq

/-- runSauceTests (lines 325-379), entered at absolute time `startAt` (when
the build promise fulfilled).  uploadApp posts the binary (getAppName /
getBinaryPath throw 'Unsupported platform for sauce labs testing' for
platforms other than android/ios); then wd.remote + driver.init.  When
init reports an error the code executes `throw new Error('Error starting
Appium web driver')` INSIDE the asynchronous init callback: the exception
escapes to the event loop (Q only guards its own handlers), the Q.promise
never settles, and the uncaught error is recorded.  Otherwise
waitForConnection then waitForTests run against the local server; both the
success and failure handlers of `.done` call driver.quit() and then
resolve()/reject() with no argument, discarding the verdict.  The upload
rejection reason is the opaque transport error of `request`, modelled as a
fixed message. -/
def runSauceTests (w : RunWorld) (startAt : Nat) : ChainResult :=
  if w.cfg.platformId == "android" || w.cfg.platformId == "ios" then
    let tUp := startAt + w.uploadDuration
    if w.uploadSucceeds then
      let tInit := tUp + w.driverInitDuration
      if w.driverInitFails then
        { trace := [Action.uploadApp, Action.driverInit]
          outcome := .pending
          uncaught := some (.error "Error starting Appium web driver") }
      else
        let cw := waitForConnection w.cfg
          (fun dt => isDeviceConnected w.attachTime (tInit + dt))
        let tExp := tInit + INITIAL_CONNECTION_TIMEOUT
        let timers := cw.timerDurations.map Action.setTimer
        match cw.result with
        | .error _ =>
          { trace := Action.uploadApp :: Action.driverInit ::
              (timers ++ [Action.driverQuit])
            outcome := .rejected tExp .undefinedReason
            uncaught := none }
        | .ok _ =>
          match waitForTestsFrom tExp w.events with
          | none =>
            { trace := Action.uploadApp :: Action.driverInit :: timers
              outcome := .pending
              uncaught := none }
          | some (t, .ok _) =>
            { trace := Action.uploadApp :: Action.driverInit ::
                (timers ++ [Action.driverQuit])
              outcome := .fulfilled t none
              uncaught := none }
          | some (t, .error _) =>
            { trace := Action.uploadApp :: Action.driverInit ::
                (timers ++ [Action.driverQuit])
              outcome := .rejected t .undefinedReason
              uncaught := none }
    else
      { trace := [Action.uploadApp]
        outcome := .rejected tUp (.error "upload failed")
        uncaught := none }
  else
    { trace := []
      outcome := .rejected startAt (.error "Unsupported platform for sauce labs testing")
      uncaught := none }

/-- runTests (lines 166-198).  Sauce branch: execPromise of the build
command, then runSauceTests; a build failure rejects with the raw
execPromise reason.  Local branch: execPromise of the run command; on
success the handler, when the action requires waiting, first calls
self.waitForConnection() (scheduling its watchdog timer) and then
evaluates `.catch(reject)` — but `reject` (like `resolve` two lines below)
is not defined in any enclosing scope, so the handler throws a
ReferenceError and the chain rejects immediately; when the action is
build-only the handler returns undefined.  On command failure the handler
throws `Error(command + " returned error code " + code)`. -/
def runTests (w : RunWorld) : ChainResult :=
  if w.cfg.useSauce then
    let cmd := getCommandForBuilding w.cfg
    if w.buildExitCode == 0 then
      let r := runSauceTests w w.buildDuration
      { r with trace := Action.execCommand cmd :: r.trace }
    else
      { trace := [Action.execCommand cmd]
        outcome := .rejected w.buildDuration (.execFail cmd w.buildExitCode)
        uncaught := none }
  else
    let cmd := getCommandForStartingTests w.cfg
    if w.buildExitCode == 0 then
      if shouldWaitForTestResult w.cfg then
        let cw := waitForConnection w.cfg
          (fun dt => isDeviceConnected w.attachTime (w.buildDuration + dt))
        { trace := Action.execCommand cmd :: cw.timerDurations.map Action.setTimer
          outcome := .rejected w.buildDuration (.referenceError "reject")
          uncaught := none }
      else
        { trace := [Action.execCommand cmd]
          outcome := .fulfilled w.buildDuration none
          uncaught := none }
    else
      { trace := [Action.execCommand cmd]
        outcome := .rejected w.buildDuration
          (.error (getCommandForStartingTests w.cfg ++ " returned error code "
            ++ toString w.buildExitCode))
        uncaught := none }

/-- Contents written by writeMedicConnectionUrl (lines 143-146):
`JSON.stringify(\x7blogurl: url\x7d)` for a URL with no characters needing
JSON escaping. -/
def medicJsonContents (url : String) : String :=
  "\x7b\"logurl\":\"" ++ url ++ "\"\x7d"

/-- The six lifecycle routes wired by injectReporters (lines 124-125). -/
def lifecycleRoutes : List String :=
  ["jasmineStarted", "specStarted", "specDone", "suiteStarted", "suiteDone",
   "jasmineDone"]

/-- The synchronous setup performed by run() once the server promise has
resolved and before runTests is invoked: scaffold, prepare, start server,
injectReporters (for each route, each reporter's handler), subcribeForEvents
(deviceLog, deviceInfo), writeMedicConnectionUrl. -/
def setupActions (w : RunWorld) : List Action :=
  [Action.createTempProject, Action.prepareProject, Action.startServer] ++
    lifecycleRoutes.map (fun r => Action.subscribeReporter r w.reporterCount) ++
    [Action.subscribeDeviceLog, Action.subscribeDeviceInfo,
     Action.writeFile (medicJsonContents w.connectionUrl)]

/-- The Q() chain built inside run() (lines 56-71), before `.fin` is
attached.  checkPlatformRequirements (inside prepareProjectToRunTests)
throws when `cordova requirements` fails; the setup steps are synchronous
at time 0 and Server.startServer is assumed to resolve (server start
failure is outside the claims). -/
def runQChain (w : RunWorld) : ChainResult :=
  if w.platformRequirementsOk then
    let r := runTests w
    { r with trace := setupActions w ++ r.trace }
  else
    { trace := [Action.createTempProject, Action.prepareProject]
      outcome := .rejected 0 (.error "Platform requirements check has failed!")
      uncaught := none }

/-- The cleanup error that cleanUpProject can raise: the shell operations
sit inside `if (this.config.getShouldCleanUpAfterRun())`, so nothing can
throw when the flag is off. -/
def cleanupEff (w : RunWorld) : Option String :=
  if w.cfg.shouldCleanUpAfterRun then w.cleanupThrows else none

/-- Q's `fin` combinator as used at line 72: when the base promise settles
at time t the callback runs at t; if the callback throws, the resulting
promise rejects at t with that error, replacing the base result; if the
base never settles the callback never runs.  Returns the resulting outcome
and the time at which the callback ran. -/
def finQ {α : Type} (o : Outcome α) (cleanupThrow : Option String) :
    Outcome α × Option Nat :=
  match o with
  | .pending => (.pending, none)
  | .thrown e => (.thrown e, none)
  | .fulfilled t v =>
    match cleanupThrow with
    | some m => (.rejected t (.error m), some t)
    | none => (.fulfilled t v, some t)
  | .rejected t e =>
    match cleanupThrow with
    | some m => (.rejected t (.error m), some t)
    | none => (.rejected t e, some t)

/-- Message of the overall run timeout (line 391). -/
def qTimeoutMsg : String :=
  "This test seems to be blocked :: timeout exceeded. Exiting ..."

/-- Q's `timeout(ms, message)` combinator as used at line 391: the returned
promise adopts the base outcome when it settles within `T`, and otherwise
rejects at `T` with Error(message).  It does NOT cancel the base promise.
A synchronous throw happens before `.timeout` is ever called and passes
through untouched. -/
def timeoutQ {α : Type} (T : Nat) (o : Outcome α) : Outcome α :=
  match o with
  | .thrown e => .thrown e
  | .pending => .rejected T (.error qTimeoutMsg)
  | .fulfilled t v =>
    if t ≤ T then .fulfilled t v else .rejected T (.error qTimeoutMsg)
  | .rejected t e =>
    if t ≤ T then .rejected t e else .rejected T (.error qTimeoutMsg)

/-- Result of ParamedicRunner.prototype.run / exports.run: the action
trace (teardown included at its place), the promise outcome, the time at
which the `.fin` callback (cleanUpProject) ran, and any exception that
escaped to the event loop. -/
structure RunResult where
  trace : List Action
  outcome : Outcome (Option Bool)
  teardownAt : Option Nat
  uncaught : Option JsError
  deriving DecidableEq

/-- The trace of the `.fin` callback: cleanUpProject runs exactly when the
chain settled, and deletes the project only under the cleanup flag. -/
def teardownActions (cfg : ParamedicConfig) : Option Nat → List Action
  | none => []
  | some _ => [Action.cleanUpProject cfg.shouldCleanUpAfterRun]

/-- ParamedicRunner.prototype.run (lines 51-75): checkSauceRequirements is
called synchronously before the Q chain exists, so its error is a
synchronous throw with no actions performed and no `.fin` attached;
otherwise the chain runs and `.fin(cleanUpProject)` is attached. -/
def runMethod (w : RunWorld) : RunResult :=
  match checkSauceRequirements w.cfg w.env with
  | .error e =>
    { trace := [], outcome := .thrown e, teardownAt := none, uncaught := none }
  | .ok _ =>
    let r := runQChain w
    let p := finQ r.outcome (cleanupEff w)
    { trace := r.trace ++ teardownActions w.cfg p.2
      outcome := p.1
      teardownAt := p.2
      uncaught := r.uncaught }

/-- exports.run (lines 383-392): runner.run() wrapped in
`.timeout(config.getTimeout(), ...)`.  The timeout only changes what the
caller observes; the inner chain, and with it the `.fin` teardown, is not
cancelled. -/
def exportsRun (w : RunWorld) : RunResult :=
  let r := runMethod w
  { r with outcome := timeoutQ w.cfg.timeout r.outcome }

/-- Classifier for the subscription and artifact-write actions of step 4-5
of the pipeline. -/
def isSetupSubAction : Action → Bool
  | .subscribeReporter _ _ => true
  | .subscribeDeviceLog => true
  | .subscribeDeviceInfo => true
  | .writeFile _ => true
  | _ => false

/-- Classifier for build/run command invocations. -/
def isExecAction : Action → Bool
  | .execCommand _ => true
  | _ => false

/-- Classifier for teardown invocations. -/
def isCleanupAction : Action → Bool
  | .cleanUpProject _ => true
  | _ => false

/-- Concrete run: Sauce mode requested on a platform without a device-cloud
profile (everything else well formed). -/
def worldC3 : RunWorld :=
  { cfg := { platformId := "windows", action := "run", args := none,
             useSauce := true, shouldCleanUpAfterRun := true, timeout := 100 }
    env := { sauceUser := some "user", sauceKey := some "key" }
    connectionUrl := "http://localhost:8008"
    reporterCount := 1
    platformRequirementsOk := true
    buildExitCode := 0
    buildDuration := 10
    uploadSucceeds := true
    uploadDuration := 10
    driverInitFails := false
    driverInitDuration := 10
    attachTime := some 100
    events := []
    cleanupThrows := none }

/-- Concrete run abandoned by the overall timeout: a Sauce run where the
device attaches but never reports a terminal event, with an overall run
timeout of 400000 ms. -/
def worldC4ce : RunWorld :=
  { cfg := { platformId := "android", action := "run", args := none,
             useSauce := true, shouldCleanUpAfterRun := true, timeout := 400000 }
    env := { sauceUser := some "user", sauceKey := some "key" }
    connectionUrl := "http://localhost:8008"
    reporterCount := 1
    platformRequirementsOk := true
    buildExitCode := 0
    buildDuration := 10
    uploadSucceeds := true
    uploadDuration := 10
    driverInitFails := false
    driverInitDuration := 10
    attachTime := some 100
    events := []
    cleanupThrows := none }

/-- Concrete run that settles on its own: a local build-only run whose
build command fulfils at t = 5 ms, well within the 100 ms overall
timeout. -/
def worldC4w : RunWorld :=
  { cfg := { platformId := "android", action := "build", args := none,
             useSauce := false, shouldCleanUpAfterRun := true, timeout := 100 }
    env := { sauceUser := none, sauceKey := none }
    connectionUrl := "http://localhost:8008"
    reporterCount := 1
    platformRequirementsOk := true
    buildExitCode := 0
    buildDuration := 5
    uploadSucceeds := true
    uploadDuration := 10
    driverInitFails := false
    driverInitDuration := 10
    attachTime := none
    events := []
    cleanupThrows := none }

/-- Concrete run whose teardown throws: a local build-only run that fulfils
at t = 5 ms, after which cleanUpProject raises "cleanup failed". -/
def worldC5 : RunWorld :=
  { cfg := { platformId := "android", action := "build", args := none,
             useSauce := false, shouldCleanUpAfterRun := true, timeout := 100 }
    env := { sauceUser := none, sauceKey := none }
    connectionUrl := "http://localhost:8008"
    reporterCount := 1
    platformRequirementsOk := true
    buildExitCode := 0
    buildDuration := 5
    uploadSucceeds := true
    uploadDuration := 10
    driverInitFails := false
    driverInitDuration := 10
    attachTime := none
    events := []
    cleanupThrows := some "cleanup failed" }

/-- Concrete run for the run-local scenario of the spec: action 'run', the
build command fulfils at t = 1000 ms, the device attaches at t = 10000 ms
(so it is connected when the watchdog expires), and the terminal
jasmineDone event with specFailed = 0 arrives after expiry. -/
def worldC6 : RunWorld :=
  { cfg := { platformId := "android", action := "run", args := none,
             useSauce := false, shouldCleanUpAfterRun := true, timeout := 600000 }
    env := { sauceUser := none, sauceKey := none }
    connectionUrl := "http://localhost:8008"
    reporterCount := 1
    platformRequirementsOk := true
    buildExitCode := 0
    buildDuration := 1000
    uploadSucceeds := true
    uploadDuration := 10
    driverInitFails := false
    driverInitDuration := 10
    attachTime := some 10000
    events := [(305000, ServerEvent.jasmineDone 0)]
    cleanupThrows := none }

/-- Concrete run used to exhibit the setup-before-command ordering: a local
build-only run with two reporters. -/
def worldC8 : RunWorld :=
  { cfg := { platformId := "android", action := "build", args := none,
             useSauce := false, shouldCleanUpAfterRun := true, timeout := 100 }
    env := { sauceUser := none, sauceKey := none }
    connectionUrl := "http://127.0.0.1:8008"
    reporterCount := 2
    platformRequirementsOk := true
    buildExitCode := 0
    buildDuration := 5
    uploadSucceeds := true
    uploadDuration := 10
    driverInitFails := false
    driverInitDuration := 10
    attachTime := none
    events := []
    cleanupThrows := none }

/-- Concrete Sauce run where driver.init reports an error: credentials
present, android platform, build and upload succeed, then the remote
driver fails to initialize. -/
def worldC9 : RunWorld :=
  { cfg := { platformId := "android", action := "run", args := none,
             useSauce := true, shouldCleanUpAfterRun := true, timeout := 900000 }
    env := { sauceUser := some "user", sauceKey := some "key" }
    connectionUrl := "http://localhost:8008"
    reporterCount := 1
    platformRequirementsOk := true
    buildExitCode := 0
    buildDuration := 10
    uploadSucceeds := true
    uploadDuration := 10
    driverInitFails := true
    driverInitDuration := 10
    attachTime := some 50
    events := [(400000, ServerEvent.jasmineDone 0)]
    cleanupThrows := none }

/-- Concrete configuration for exercising the connection watchdog. -/
def cfgC7 : ParamedicConfig :=
  { platformId := "android", action := "run", args := none,
    useSauce := false, shouldCleanUpAfterRun := true, timeout := 500000 }

/-- Second concrete configuration, differing from cfgC7 in every timeout-
related field, for the config-independence claim. -/
def cfgC10 : ParamedicConfig :=
  { platformId := "ios", action := "emulate", args := some "--device",
    useSauce := true, shouldCleanUpAfterRun := false, timeout := 7 }

/-- Events that settle neither listener of waitForTests are skipped: the
promise outcome is decided by the suffix starting at the first relevant
event. -/
theorem waitForTests_skip (pre : List ServerEvent)
    (hpre : ∀ e ∈ pre, relevantEvent e = false) (rest : List ServerEvent) :
    waitForTests (pre ++ rest) = waitForTests rest := by
  induction pre with
  | nil => rfl
  | cons e es ih =>
    have he : relevantEvent e = false := hpre e (List.mem_cons_self e es)
    have hes : ∀ x ∈ es, relevantEvent x = false :=
      fun x hx => hpre x (List.mem_cons_of_mem e hx)
    cases e with
    | jasmineDone n => simp [relevantEvent] at he
    | disconnect => simp [relevantEvent] at he
    | jasmineStarted => simpa [waitForTests] using ih hes
    | specStarted => simpa [waitForTests] using ih hes
    | specDone => simpa [waitForTests] using ih hes
    | suiteStarted => simpa [waitForTests] using ih hes
    | suiteDone => simpa [waitForTests] using ih hes
    | deviceLog => simpa [waitForTests] using ih hes
    | deviceInfo => simpa [waitForTests] using ih hes

/-- Claim C1: for every terminal 'jasmineDone' event whose payload carries
a failed-spec count N (delivered as the first settling event), waitForTests
resolves with passed = true exactly when N = 0, and with passed = false for
every N > 0, whatever events follow. -/
theorem claim1_waitForTests_terminal (pre rest : List ServerEvent) (N : Nat)
    (hpre : ∀ e ∈ pre, relevantEvent e = false) :
    waitForTests (pre ++ ServerEvent.jasmineDone N :: rest)
      = some (Except.ok (N == 0)) ∧
    (N = 0 → waitForTests (pre ++ ServerEvent.jasmineDone N :: rest)
      = some (Except.ok true)) ∧
    (0 < N → waitForTests (pre ++ ServerEvent.jasmineDone N :: rest)
      = some (Except.ok false)) := by
  have key : waitForTests (pre ++ ServerEvent.jasmineDone N :: rest)
      = some (Except.ok (N == 0)) := by
    rw [waitForTests_skip pre hpre]
    rfl
  refine ⟨key, ?_, ?_⟩
  · intro h0
    rw [key, h0]
    rfl
  · intro hN
    rw [key]
    cases N with
    | zero => omega
    | succ k => rfl

/-- Claim C1 witness: a non-settling event, then jasmineDone with three
failed specs, then a disconnect — the promise resolves with false. -/
theorem claim1_witness :
    waitForTests ([ServerEvent.specDone] ++
      ServerEvent.jasmineDone 3 :: [ServerEvent.disconnect])
      = some (Except.ok false) :=
  (claim1_waitForTests_terminal [ServerEvent.specDone] [ServerEvent.disconnect]
    3 (by decide)).2.2 (by decide)

/-- Claim C2: whenever a 'disconnect' event is delivered before any
terminal 'jasmineDone' event, waitForTests rejects with the disconnect
error; it never resolves (with a pass or otherwise) and never stays in an
unknown pending state, and the events after the disconnect — a retry would
have to consume them — cannot change the outcome (the right-hand side does
not depend on them). -/
theorem claim2_waitForTests_disconnect (pre rest : List ServerEvent)
    (hpre : ∀ e ∈ pre, relevantEvent e = false) :
    waitForTests (pre ++ ServerEvent.disconnect :: rest)
      = some (Except.error disconnectErrMsg) ∧
    (∀ b, waitForTests (pre ++ ServerEvent.disconnect :: rest)
      ≠ some (Except.ok b)) ∧
    waitForTests (pre ++ ServerEvent.disconnect :: rest) ≠ none := by
  have key : waitForTests (pre ++ ServerEvent.disconnect :: rest)
      = some (Except.error disconnectErrMsg) := by
    rw [waitForTests_skip pre hpre]
    rfl
  refine ⟨key, ?_, ?_⟩
  · intro b h
    rw [key] at h
    simp at h
  · intro h
    rw [key] at h
    simp at h

/-- Claim C2 witness: a suite event, then a disconnect, then a passing
terminal event that arrives too late — the promise still rejects. -/
theorem claim2_witness :
    waitForTests ([ServerEvent.suiteDone] ++
      ServerEvent.disconnect :: [ServerEvent.jasmineDone 0])
      = some (Except.error disconnectErrMsg) :=
  (claim2_waitForTests_disconnect [ServerEvent.suiteDone]
    [ServerEvent.jasmineDone 0] (by decide)).1

/-- Claim C7: waitForConnection sets exactly one timer, of
INITIAL_CONNECTION_TIMEOUT, and evaluates the server's isDeviceConnected
predicate exactly once, at timer expiry; it resolves when the predicate is
then true — in particular for any attach time at or before expiry,
regardless of how early the attach happened — and rejects with the timeout
error carrying the wait duration when it is false.  There is no check
before expiry: the list of check times is exactly the singleton expiry. -/
theorem claim7_waitForConnection (cfg : ParamedicConfig)
    (connected : Nat → Bool) (attach : Nat) :
    (waitForConnection cfg connected).timerDurations
      = [INITIAL_CONNECTION_TIMEOUT] ∧
    (waitForConnection cfg connected).checkTimes
      = [INITIAL_CONNECTION_TIMEOUT] ∧
    (connected INITIAL_CONNECTION_TIMEOUT = true →
      (waitForConnection cfg connected).result = Except.ok ()) ∧
    (connected INITIAL_CONNECTION_TIMEOUT = false →
      (waitForConnection cfg connected).result
        = Except.error connectionTimeoutErrMsg) ∧
    (attach ≤ INITIAL_CONNECTION_TIMEOUT →
      (waitForConnection cfg (isDeviceConnected (some attach))).result
        = Except.ok ()) := by
  refine ⟨rfl, rfl, ?_, ?_, ?_⟩
  · intro h
    simp [waitForConnection, h]
  · intro h
    simp [waitForConnection, h]
  · intro h
    simp [waitForConnection, isDeviceConnected, h]

/-- Claim C7 witness: a device attaching at 5 ms is reported connected at
the single check point. -/
theorem claim7_witness :
    (waitForConnection cfgC7 (isDeviceConnected (some 5))).result
      = Except.ok () :=
  (claim7_waitForConnection cfgC7 (isDeviceConnected (some 5)) 5).2.2.2.2
    (by decide)

/-- Claim C10: waitForConnection ignores the run's configuration entirely —
two arbitrary configurations produce identical behaviour — and always waits
the module-level constant 300000 ms (5 minutes) before its single
connectivity check; the timeout error message always reports 300 seconds. -/
theorem claim10_connection_timeout_constant (cfg cfg' : ParamedicConfig)
    (connected : Nat → Bool) :
    waitForConnection cfg connected = waitForConnection cfg' connected ∧
    (waitForConnection cfg connected).timerDurations = [300000] ∧
    INITIAL_CONNECTION_TIMEOUT = 300000 ∧
    connectionTimeoutErrMsg
      = "Seems like device not connected to local server in 300 secs" :=
  ⟨rfl, rfl, rfl, rfl⟩

/-- Under Sauce mode, any of the four invalid configurations makes
checkSauceRequirements throw one of its four configuration errors. -/
theorem checkSauceRequirements_fails (cfg : ParamedicConfig) (env : ProcessEnv)
    (h1 : cfg.useSauce = true)
    (h2 : (cfg.platformId ≠ "android" ∧ cfg.platformId ≠ "ios") ∨
      envTruthy env.sauceKey = false ∨ envTruthy env.sauceUser = false ∨
      shouldWaitForTestResult cfg = false) :
    ∃ m, checkSauceRequirements cfg env = Except.error (JsError.error m) ∧
      m ∈ ["Sauce Labs only supports Android and iOS",
           SAUCE_KEY_ENV_VAR ++ " environment variable not set",
           SAUCE_USER_ENV_VAR ++ " environment variable not set",
           "justBuild cannot be used with shouldUseSauce"] := by
  unfold checkSauceRequirements
  rw [h1]
  simp only [if_true]
  split_ifs with hc1 hc2 hc3 hc4
  · exact ⟨_, rfl, by simp⟩
  · exact ⟨_, rfl, by simp⟩
  · exact ⟨_, rfl, by simp⟩
  · exact ⟨_, rfl, by simp⟩
  · exfalso
    rcases h2 with ⟨ha, hi⟩ | hk | hu | hw
    · exact hc1 (by simp [bne_iff_ne, ha, hi])
    · simp [hk] at hc2
    · simp [hu] at hc3
    · simp [hw] at hc4

/-- Claim C3: when remote (Sauce) mode is requested, run fails with one of
the four configuration errors, synchronously and before any resource is
acquired (the action trace is empty and teardown is never registered), if
the platform is not 'android' or 'ios', if either credential environment
variable is unset (or empty, which JavaScript treats the same), or if the
action is neither 'run' nor 'emulate'. -/
theorem claim3_sauce_validation (w : RunWorld)
    (h1 : w.cfg.useSauce = true)
    (h2 : (w.cfg.platformId ≠ "android" ∧ w.cfg.platformId ≠ "ios") ∨
      envTruthy w.env.sauceKey = false ∨ envTruthy w.env.sauceUser = false ∨
      shouldWaitForTestResult w.cfg = false) :
    (runMethod w).trace = [] ∧ (runMethod w).teardownAt = none ∧
    ∃ m, (runMethod w).outcome = Outcome.thrown (JsError.error m) ∧
      m ∈ ["Sauce Labs only supports Android and iOS",
           SAUCE_KEY_ENV_VAR ++ " environment variable not set",
           SAUCE_USER_ENV_VAR ++ " environment variable not set",
           "justBuild cannot be used with shouldUseSauce"] := by
  obtain ⟨m, hm, hmem⟩ := checkSauceRequirements_fails w.cfg w.env h1 h2
  unfold runMethod
  rw [hm]
  exact ⟨rfl, rfl, m, rfl, hmem⟩

/-- Claim C3 witness: the unsupported-platform world is rejected with an
empty trace. -/
theorem claim3_witness : (runMethod worldC3).trace = [] :=
  (claim3_sauce_validation worldC3 rfl (Or.inl (by decide))).1

/-- An `all` over a pair of negated classifiers gives both classifiers
false on every member. -/
theorem split_all_flags {p q : Action → Bool} {l : List Action}
    (h : (l.all fun a => !p a && !q a) = true) :
    ∀ a ∈ l, p a = false ∧ q a = false := by
  intro a ha
  have h2 := List.all_eq_true.mp h a ha
  simp only [Bool.and_eq_true, Bool.not_eq_true'] at h2
  exact h2

/-- A classifier false on every member counts zero members. -/
theorem countP_eq_zero_of_flags {q : Action → Bool} {l : List Action}
    (h : ∀ a ∈ l, q a = false) : l.countP q = 0 := by
  rw [List.countP_eq_zero]
  intro a ha
  simp [h a ha]

/-- The setup steps of run() issue no build/run command and no teardown. -/
theorem setupActions_check (w : RunWorld) :
    ((setupActions w).all fun a => !isExecAction a && !isCleanupAction a)
      = true := by
  simp [setupActions, lifecycleRoutes, isExecAction, isCleanupAction]

/-- The Sauce pipeline performs no event subscription, no artifact write
and no teardown. -/
theorem runSauceTests_trace_check (w : RunWorld) (s : Nat) :
    ((runSauceTests w s).trace.all
      fun a => !isSetupSubAction a && !isCleanupAction a) = true := by
  unfold runSauceTests
  dsimp only [waitForConnection]
  repeat' split
  all_goals simp [isSetupSubAction, isCleanupAction]

/-- runTests performs no event subscription, no artifact write and no
teardown. -/
theorem runTests_trace_check (w : RunWorld) :
    ((runTests w).trace.all
      fun a => !isSetupSubAction a && !isCleanupAction a) = true := by
  unfold runTests
  split
  · split
    · dsimp only
      rw [List.all_cons, runSauceTests_trace_check]
      rfl
    · rfl
  · split
    · split
      · simp [waitForConnection, isSetupSubAction, isCleanupAction]
      · rfl
    · rfl

/-- In every branch, runTests starts by issuing a cordova command. -/
theorem runTests_trace_head (w : RunWorld) :
    ∃ cmd rest, (runTests w).trace = Action.execCommand cmd :: rest := by
  unfold runTests
  repeat' split
  all_goals exact ⟨_, _, rfl⟩

/-- The chain inside run() never performs the teardown action itself (the
teardown comes only from the `fin` callback). -/
theorem runQChain_trace_no_cleanup (w : RunWorld) :
    ∀ a ∈ (runQChain w).trace, isCleanupAction a = false := by
  intro a ha
  unfold runQChain at ha
  split at ha
  · simp only [List.mem_append] at ha
    rcases ha with h | h
    · exact (split_all_flags (setupActions_check w) a h).2
    · exact (split_all_flags (runTests_trace_check w) a h).2
  · fin_cases ha <;> rfl

/-- The `fin` callback runs exactly when the base promise settles. -/
theorem finQ_snd {α : Type} (o : Outcome α) (c : Option String) :
    (finQ o c).2 = settleTime o := by
  cases o <;> cases c <;> rfl

/-- The `fin` combinator preserves the settle time of the base promise. -/
theorem settleTime_finQ_fst {α : Type} (o : Outcome α) (c : Option String) :
    settleTime (finQ o c).1 = settleTime o := by
  cases o <;> cases c <;> rfl

/-- Q's timeout is the identity on promises that settle in time. -/
theorem timeoutQ_of_settled {α : Type} (T t : Nat) (o : Outcome α)
    (hs : settleTime o = some t) (ht : t ≤ T) : timeoutQ T o = o := by
  cases o with
  | fulfilled u v =>
    simp only [settleTime, Option.some.injEq] at hs
    subst hs
    simp [timeoutQ, ht]
  | rejected u e =>
    simp only [settleTime, Option.some.injEq] at hs
    subst hs
    simp [timeoutQ, ht]
  | pending => simp [settleTime] at hs
  | thrown e => simp [settleTime] at hs

/-- Shape of runMethod when the Sauce validation passes. -/
theorem runMethod_ok (w : RunWorld)
    (hok : checkSauceRequirements w.cfg w.env = Except.ok ()) :
    runMethod w =
      { trace := (runQChain w).trace ++
          teardownActions w.cfg (finQ (runQChain w).outcome (cleanupEff w)).2
        outcome := (finQ (runQChain w).outcome (cleanupEff w)).1
        teardownAt := (finQ (runQChain w).outcome (cleanupEff w)).2
        uncaught := (runQChain w).uncaught } := by
  unfold runMethod
  rw [hok]

/-- Shape of runMethod when the Sauce validation throws. -/
theorem runMethod_err (w : RunWorld) (e : JsError)
    (herr : checkSauceRequirements w.cfg w.env = Except.error e) :
    runMethod w =
      { trace := [], outcome := .thrown e, teardownAt := none,
        uncaught := none } := by
  unfold runMethod
  rw [herr]

/-- Claim C4, amended: for every run that passes the synchronous Sauce
validation and whose chain settles, at a time within the overall run
timeout, teardown executes exactly once, at the settle time, before the
result is delivered at that same time.  A run abandoned by the overall
timeout does NOT get this guarantee: the timeout rejection is delivered
while the inner chain is still pending, and the `fin` teardown fires only
when — and if — the abandoned chain later settles
(claim4_counterexample). -/
theorem claim4_amended_teardown (w : RunWorld) (t : Nat)
    (hs : settleTime (runMethod w).outcome = some t)
    (ht : t ≤ w.cfg.timeout) :
    (runMethod w).teardownAt = some t ∧
    (runMethod w).trace.countP isCleanupAction = 1 ∧
    settleTime (exportsRun w).outcome = some t := by
  rcases hcs : checkSauceRequirements w.cfg w.env with e | u
  · rw [runMethod_err w e hcs] at hs
    simp [settleTime] at hs
  · cases u
    have hrm := runMethod_ok w hcs
    rw [hrm] at hs
    have hq : settleTime (runQChain w).outcome = some t := by
      rw [← settleTime_finQ_fst (runQChain w).outcome (cleanupEff w)]
      exact hs
    have htd : (finQ (runQChain w).outcome (cleanupEff w)).2 = some t := by
      rw [finQ_snd]
      exact hq
    refine ⟨?_, ?_, ?_⟩
    · rw [hrm]
      exact htd
    · rw [hrm]
      simp only [List.countP_append]
      rw [countP_eq_zero_of_flags (runQChain_trace_no_cleanup w), htd]
      rfl
    · show settleTime (timeoutQ w.cfg.timeout (runMethod w).outcome) = some t
      rw [timeoutQ_of_settled w.cfg.timeout t (runMethod w).outcome
        (by rw [hrm]; exact hs) ht]
      rw [hrm]
      exact hs

/-- Claim C4 witness: the local build-only run settling at t = 5 gets its
teardown exactly once, at t = 5. -/
theorem claim4_witness : (runMethod worldC4w).teardownAt = some 5 :=
  (claim4_amended_teardown worldC4w 5 rfl (by decide)).1

/-- Claim C4 counterexample: in the Sauce run whose device attaches but
never reports, abandoned by the 400000 ms overall timeout, the caller
receives the timeout rejection while teardown has not executed at all (the
trace contains no cleanUpProject and the `fin` callback never ran). -/
theorem claim4_counterexample :
    (exportsRun worldC4ce).outcome
      = Outcome.rejected 400000 (JsError.error qTimeoutMsg) ∧
    (exportsRun worldC4ce).teardownAt = none ∧
    (exportsRun worldC4ce).trace.countP isCleanupAction = 0 := by
  refine ⟨rfl, rfl, ?_⟩
  rfl

/-- Claim C5, amended: an error raised during teardown (cleanUpProject) is
not caught anywhere: it propagates through the `fin` combinator, replacing
the chain's primary result — whether fulfilment or rejection — as the
outcome run delivers to its caller. -/
theorem claim5_amended_teardown_error (w : RunWorld) (t : Nat) (m : String)
    (hok : checkSauceRequirements w.cfg w.env = Except.ok ())
    (hs : settleTime (runQChain w).outcome = some t)
    (hm : cleanupEff w = some m) :
    (runMethod w).outcome = Outcome.rejected t (JsError.error m) ∧
    (t ≤ w.cfg.timeout →
      (exportsRun w).outcome = Outcome.rejected t (JsError.error m)) := by
  have hrm := runMethod_ok w hok
  have houtcome : (runMethod w).outcome
      = Outcome.rejected t (JsError.error m) := by
    rw [hrm]
    dsimp only
    rcases ho : (runQChain w).outcome with ⟨u, v⟩ | ⟨u, e⟩ | - | e
    · rw [ho] at hs
      simp only [settleTime, Option.some.injEq] at hs
      subst hs
      simp [finQ, hm]
    · rw [ho] at hs
      simp only [settleTime, Option.some.injEq] at hs
      subst hs
      simp [finQ, hm]
    · rw [ho] at hs
      simp [settleTime] at hs
    · rw [ho] at hs
      simp [settleTime] at hs
  refine ⟨houtcome, ?_⟩
  intro hT
  show timeoutQ w.cfg.timeout (runMethod w).outcome
    = Outcome.rejected t (JsError.error m)
  rw [houtcome]
  simp [timeoutQ, hT]

/-- Claim C5 witness: in the build-only run whose cleanup throws, the
outcome of run is the teardown error. -/
theorem claim5_witness :
    (runMethod worldC5).outcome
      = Outcome.rejected 5 (JsError.error "cleanup failed") :=
  (claim5_amended_teardown_error worldC5 5 "cleanup failed" rfl rfl rfl).1

/-- Claim C5 counterexample: the chain of worldC5 fulfils at t = 5, yet the
caller of run observes the teardown error "cleanup failed" — the teardown
error is propagated and masks the primary result, contradicting the claim
that it is logged and never propagated. -/
theorem claim5_counterexample :
    (runQChain worldC5).outcome = Outcome.fulfilled 5 none ∧
    (exportsRun worldC5).outcome
      = Outcome.rejected 5 (JsError.error "cleanup failed") := by
  exact ⟨rfl, rfl⟩

/-- The `fin` teardown trace never subscribes or issues commands. -/
theorem teardownActions_not_setup (cfg : ParamedicConfig) (o : Option Nat) :
    ∀ a ∈ teardownActions cfg o,
      isSetupSubAction a = false ∧ isExecAction a = false := by
  intro a ha
  cases o with
  | none => simp [teardownActions] at ha
  | some t =>
    simp [teardownActions] at ha
    subst ha
    exact ⟨rfl, rfl⟩

/-- Claim C6 (code bug): in the run-local scenario — action 'run', the
build fulfils at t = 1000 ms, the device is attached when the watchdog
would expire, and a terminal jasmineDone with specFailed = 0 arrives after
expiry — run does NOT resolve with passed = true.  The success handler of
runTests starts the watchdog timer and then evaluates `.catch(reject)`,
but `reject` (and `resolve`) is not defined in any enclosing scope, so the
handler throws a ReferenceError and the chain rejects the moment the build
command fulfils, before the watchdog or the test results are ever
consulted. -/
theorem claim6_local_run_reference_error :
    (runQChain worldC6).outcome
      = Outcome.rejected 1000 (JsError.referenceError "reject") ∧
    Action.setTimer INITIAL_CONNECTION_TIMEOUT ∈ (runQChain worldC6).trace ∧
    (exportsRun worldC6).outcome
      = Outcome.rejected 1000 (JsError.referenceError "reject") ∧
    ∀ (t : Nat) (b : Bool),
      (exportsRun worldC6).outcome ≠ Outcome.fulfilled t (some b) := by
  refine ⟨rfl, by decide, rfl, ?_⟩
  intro t b h
  rw [show (exportsRun worldC6).outcome
    = Outcome.rejected 1000 (JsError.referenceError "reject") from rfl] at h
  exact Outcome.noConfusion h

/-- Claim C8: during run (once the synchronous validation and the platform
requirements check pass), the trace is exactly the setup actions — which
contain the reporter subscriptions for all six lifecycle routes, the
deviceLog and deviceInfo handlers, and the write of the JSON file holding
the logurl — followed by the build/run command and everything after it: no
command occurs among the setup actions, and no subscription or write
occurs from the command onwards. -/
theorem claim8_setup_before_command (w : RunWorld)
    (hok : checkSauceRequirements w.cfg w.env = Except.ok ())
    (hreq : w.platformRequirementsOk = true) :
    ∃ cmd post,
      (runMethod w).trace
        = setupActions w ++ (Action.execCommand cmd :: post) ∧
      Action.subscribeDeviceLog ∈ setupActions w ∧
      Action.subscribeDeviceInfo ∈ setupActions w ∧
      (∀ r ∈ lifecycleRoutes,
        Action.subscribeReporter r w.reporterCount ∈ setupActions w) ∧
      Action.writeFile (medicJsonContents w.connectionUrl) ∈ setupActions w ∧
      (∀ a ∈ setupActions w, isExecAction a = false) ∧
      (∀ a ∈ Action.execCommand cmd :: post, isSetupSubAction a = false) := by
  obtain ⟨cmd, rest, hhead⟩ := runTests_trace_head w
  have hq : runQChain w
      = { runTests w with trace := setupActions w ++ (runTests w).trace } := by
    simp [runQChain, hreq]
  refine ⟨cmd,
    rest ++ teardownActions w.cfg (finQ (runQChain w).outcome (cleanupEff w)).2,
    ?_, ?_, ?_, ?_, ?_, ?_, ?_⟩
  · rw [runMethod_ok w hok]
    dsimp only
    rw [hq]
    dsimp only
    rw [hhead]
    simp [List.append_assoc]
  · simp [setupActions]
  · simp [setupActions]
  · intro r hr
    exact List.mem_append_left _
      (List.mem_append_right _ (List.mem_map_of_mem _ hr))
  · simp [setupActions]
  · intro a ha
    exact (split_all_flags (setupActions_check w) a ha).1
  · intro a ha
    rcases List.mem_cons.mp ha with rfl | ha2
    · rfl
    · rcases List.mem_append.mp ha2 with h | h
      · have hmem : a ∈ (runTests w).trace := by
          rw [hhead]
          exact List.mem_cons_of_mem _ h
        exact (split_all_flags (runTests_trace_check w) a hmem).1
      · exact (teardownActions_not_setup w.cfg _ a h).1

/-- Claim C8 witness: in the concrete build-only world, the deviceLog
subscription is part of the run's trace. -/
theorem claim8_witness :
    Action.subscribeDeviceLog ∈ (runMethod worldC8).trace := by
  obtain ⟨cmd, post, htr, h1, -⟩ :=
    claim8_setup_before_command worldC8 rfl rfl
  rw [htr]
  exact List.mem_append_left _ h1

/-- Claim C9 (code bug): on the remote path, when driver.init reports an
error the code throws inside the asynchronous init callback instead of
calling the surrounding reject; the error escapes to the event loop as an
uncaught exception, the run's promise never settles, teardown never runs
(the `fin` callback requires settlement), and the only thing the caller
ever receives is the unrelated overall-timeout rejection. -/
theorem claim9_driver_init_uncaught :
    (runMethod worldC9).uncaught
      = some (JsError.error "Error starting Appium web driver") ∧
    (runMethod worldC9).outcome = Outcome.pending ∧
    (runMethod worldC9).teardownAt = none ∧
    (runMethod worldC9).trace.countP isCleanupAction = 0 ∧
    (exportsRun worldC9).outcome
      = Outcome.rejected 900000 (JsError.error qTimeoutMsg) :=
  ⟨rfl, rfl, rfl, rfl, rfl⟩

end Paramedic
